import Mathlib

/-!
# Verification of `scripts/parse_csv.py` (Skylark CSV → JSON converter)

Shallow embedding of the converter script. Rows read from a CSV file are
modelled as association lists from column name to raw string value (the
mapping `csv.DictReader` yields per row); the Python string primitives the
script uses (`str.strip`, `str.split(",")`, `int(...)`) are embedded as
executable Lean functions on `String` / `List Char`.
-/

namespace ParseCsv

/-- The characters Python's `str.strip()` removes (ASCII whitespace). -/
def pySpace (c : Char) : Bool :=
  c = ' ' || c = '\t' || c = '\n' || c = '\r' || c = '\x0b' || c = '\x0c'

/-- Strip `pySpace` characters from both ends of a character list:
leading ones with `dropWhile`, trailing ones with `rdropWhile`. -/
def stripChars (l : List Char) : List Char :=
  List.rdropWhile pySpace (List.dropWhile pySpace l)

/-- Embedding of Python `s.strip()`. -/
def pyStrip (s : String) : String :=
  ⟨stripChars s.data⟩

/-- Split a character list at every comma; no merging of adjacent
separators, so empty pieces are kept (as Python `str.split(",")` does). -/
def splitCommaAux : List Char → List Char → List (List Char)
  | [], acc => [acc.reverse]
  | c :: rest, acc =>
    if c = ',' then acc.reverse :: splitCommaAux rest []
    else splitCommaAux rest (c :: acc)

/-- Embedding of Python `s.split(",")`.  `pySplit "" = [""]`, as in Python. -/
def pySplit (s : String) : List String :=
  (splitCommaAux s.data []).map (fun l => ⟨l⟩)

/-- Digits-with-underscores tail: Python 3 `int()` accepts a single
underscore between two digits (`"1_000"`), but not leading, trailing or
doubled underscores. -/
def digitsRest : List Char → Bool
  | [] => true
  | '_' :: c :: rest => c.isDigit && digitsRest rest
  | ['_'] => false
  | c :: rest => c.isDigit && digitsRest rest

/-- A valid unsigned base-10 literal for Python `int()`: non-empty, starts
with a digit, then digits with optional single separating underscores. -/
def validDigits : List Char → Bool
  | [] => false
  | c :: rest => c.isDigit && digitsRest rest

/-- Numeric value of a digit/underscore list (underscores ignored). -/
def digitsVal (l : List Char) : Nat :=
  (l.filter (fun c => !(c = '_'))).foldl (fun a c => a * 10 + (c.toNat - '0'.toNat)) 0

/-- Embedding of Python `int(s)` on an already-stripped string: optional
sign followed by a valid digit sequence; `none` models the `ValueError`
(`ValueConversionError`) raised on any other input, including `""`. -/
def pyInt (s : String) : Option Int :=
  match s.data with
  | '+' :: rest => if validDigits rest then some (Int.ofNat (digitsVal rest)) else none
  | '-' :: rest => if validDigits rest then some (-(Int.ofNat (digitsVal rest))) else none
  | l => if validDigits l then some (Int.ofNat (digitsVal l)) else none

/-- A raw CSV row: mapping from column name to raw string value. -/
abbrev Row := List (String × String)

/-- Embedding of Python `raw.get(key, dflt)`. -/
def rget (row : Row) (key dflt : String) : String :=
  match row.lookup key with
  | some v => v
  | none => dflt

/-- Embedding of the list-field comprehension
`[s.strip() for s in raw.get(k, "").split(",") if s.strip()]`. -/
def cleanList (s : String) : List String :=
  ((pySplit s).filter (fun piece => decide (pyStrip piece ≠ ""))).map pyStrip

/-- A normalized field value: string, list of strings, or integer. -/
inductive Value where
  | vstr : String → Value
  | vlist : List String → Value
  | vint : Int → Value
deriving DecidableEq

/-- A normalized entity record: ordered key/value pairs, as the Python
dict literal each transformer builds. -/
abbrev Record := List (String × Value)

/-- The error a transformer can raise: `int()` on non-numeric text
(the spec's ValueConversionError), carrying the offending text. -/
inductive PyError where
  | valueConversionError : String → PyError
deriving DecidableEq

/-- Embedding of `transform_pilot`: the dict literal of
`scripts/parse_csv.py`, with the single fallible step —
`int(raw.get("daily_rate_inr", "0").strip())` — made explicit. -/
def transform_pilot (raw : Row) : Except PyError Record :=
  match pyInt (pyStrip (rget raw "daily_rate_inr" "0")) with
  | none => .error (.valueConversionError (pyStrip (rget raw "daily_rate_inr" "0")))
  | some rate => .ok
      [("pilot_id", .vstr (pyStrip (rget raw "pilot_id" ""))),
       ("name", .vstr (pyStrip (rget raw "name" ""))),
       ("skills", .vlist (cleanList (rget raw "skills" ""))),
       ("certifications", .vlist (cleanList (rget raw "certifications" ""))),
       ("location", .vstr (pyStrip (rget raw "location" ""))),
       ("status", .vstr (pyStrip (rget raw "status" ""))),
       ("current_assignment", .vstr (pyStrip (rget raw "current_assignment" ""))),
       ("available_from", .vstr (pyStrip (rget raw "available_from" ""))),
       ("daily_rate_inr", .vint rate)]

/-- Embedding of `transform_drone`: no integer field, so no fallible
step; wrapped in `Except` for uniformity with the other transformers. -/
def transform_drone (raw : Row) : Except PyError Record :=
  .ok
    [("drone_id", .vstr (pyStrip (rget raw "drone_id" ""))),
     ("model", .vstr (pyStrip (rget raw "model" ""))),
     ("capabilities", .vlist (cleanList (rget raw "capabilities" ""))),
     ("status", .vstr (pyStrip (rget raw "status" ""))),
     ("location", .vstr (pyStrip (rget raw "location" ""))),
     ("current_assignment", .vstr (pyStrip (rget raw "current_assignment" ""))),
     ("maintenance_due", .vstr (pyStrip (rget raw "maintenance_due" ""))),
     ("weather_resistance", .vstr (pyStrip (rget raw "weather_resistance" "")))]

/-- Embedding of `transform_mission`. -/
def transform_mission (raw : Row) : Except PyError Record :=
  match pyInt (pyStrip (rget raw "mission_budget_inr" "0")) with
  | none => .error (.valueConversionError (pyStrip (rget raw "mission_budget_inr" "0")))
  | some budget => .ok
      [("project_id", .vstr (pyStrip (rget raw "project_id" ""))),
       ("client", .vstr (pyStrip (rget raw "client" ""))),
       ("location", .vstr (pyStrip (rget raw "location" ""))),
       ("required_skills", .vlist (cleanList (rget raw "required_skills" ""))),
       ("required_certs", .vlist (cleanList (rget raw "required_certs" ""))),
       ("start_date", .vstr (pyStrip (rget raw "start_date" ""))),
       ("end_date", .vstr (pyStrip (rget raw "end_date" ""))),
       ("priority", .vstr (pyStrip (rget raw "priority" ""))),
       ("mission_budget_inr", .vint budget),
       ("weather_forecast", .vstr (pyStrip (rget raw "weather_forecast" ""))),
       ]

/-- Embedding of the filtering loop of `parse_csv_to_records`: keep a row
iff `any(row.values())`, i.e. iff some raw value is a non-empty string.
The file/`DictReader` part of the Python function is I/O; the embedding
starts from the row sequence the reader yields. -/
def parse_csv_to_records (rows : List Row) : List Row :=
  rows.filter (fun row => row.any (fun kv => decide (kv.2 ≠ "")))

/-- Embedding of the list comprehension `[tf(r) for r in records]`: the
first `ValueConversionError` aborts the whole comprehension. -/
def mapExcept (tf : Row → Except PyError Record) : List Row → Except PyError (List Record)
  | [] => .ok []
  | r :: rest =>
    match tf r with
    | .error e => .error e
    | .ok rec =>
      match mapExcept tf rest with
      | .error e => .error e
      | .ok recs => .ok (rec :: recs)

/-- `pilots = [transform_pilot(r) for r in parse_csv_to_records(...)]`. -/
def convertPilots (rows : List Row) : Except PyError (List Record) :=
  mapExcept transform_pilot (parse_csv_to_records rows)

/-- `drones = [transform_drone(r) for r in parse_csv_to_records(...)]`. -/
def convertDrones (rows : List Row) : Except PyError (List Record) :=
  mapExcept transform_drone (parse_csv_to_records rows)

/-- `missions = [transform_mission(r) for r in parse_csv_to_records(...)]`. -/
def convertMissions (rows : List Row) : Except PyError (List Record) :=
  mapExcept transform_mission (parse_csv_to_records rows)

/-- JSON document syntax: what `json.dump` writes into an output file,
at the level of the document's structure. -/
inductive Json where
  | jstr : String → Json
  | jint : Int → Json
  | jarr : List Json → Json
  | jobj : List (String × Json) → Json

/-- How `json.dump` serializes one normalized field value. -/
def valueToJson : Value → Json
  | .vstr s => .jstr s
  | .vlist l => .jarr (l.map Json.jstr)
  | .vint n => .jint n

/-- How `json.dump` serializes one normalized record (a Python dict):
a JSON object with the dict's keys in order. -/
def recordToJson (rec : Record) : Json :=
  .jobj (rec.map (fun kv => (kv.1, valueToJson kv.2)))

/-- The output document `json.dump(entities, f, indent=2)` writes:
one JSON array of objects. -/
def writeDoc (recs : List Record) : Json :=
  .jarr (recs.map recordToJson)

/-- Modelled from the spec: decoding a JSON array of strings back into a
list-valued field; the reading side lives in the downstream Next.js app,
which is not part of this repository. -/
def strListOfJson : List Json → Option (List String)
  | [] => some []
  | .jstr s :: rest => (strListOfJson rest).map (fun t => s :: t)
  | _ => none

/-- Modelled from the spec: decoding one JSON value back into a
normalized field value. -/
def valueOfJson : Json → Option Value
  | .jstr s => some (.vstr s)
  | .jint n => some (.vint n)
  | .jarr l => (strListOfJson l).map Value.vlist
  | .jobj _ => none

/-- Modelled from the spec: decoding the fields of a JSON object. -/
def fieldsOfJson : List (String × Json) → Option Record
  | [] => some []
  | (k, j) :: rest =>
    match valueOfJson j, fieldsOfJson rest with
    | some v, some r => some ((k, v) :: r)
    | _, _ => none

/-- Modelled from the spec: decoding one JSON object into a record. -/
def recordOfJson : Json → Option Record
  | .jobj fields => fieldsOfJson fields
  | _ => none

/-- Modelled from the spec: decoding a list of JSON objects. -/
def recordsOfJson : List Json → Option (List Record)
  | [] => some []
  | j :: rest =>
    match recordOfJson j, recordsOfJson rest with
    | some r, some rs => some (r :: rs)
    | _, _ => none

/-- Modelled from the spec: "reading the document back yields a
collection" — the reader of the output document. -/
def readDoc : Json → Option (List Record)
  | .jarr docs => recordsOfJson docs
  | _ => none

/-- The three row sequences the orchestrator reads, one per input file. -/
structure Inputs where
  pilot_rows : List Row
  drone_rows : List Row
  mission_rows : List Row

/-- The output side of the filesystem: for each output file name, the
document it currently holds (if any). -/
abbrev Store := String → Option Json

/-- Writing an output file replaces its whole content (mode `"w"`). -/
def setFile (s : Store) (name : String) (doc : Json) : Store :=
  fun k => if k = name then some doc else s k

/-- Embedding of `main()`: convert pilots, write `pilots.json`; convert
drones, write `drones.json`; convert missions, write `missions.json` — in
that order, stopping at the first `ValueConversionError` (an uncaught
Python exception aborts the process, leaving later files untouched). -/
def main (inp : Inputs) (s : Store) : Store × Option PyError :=
  match convertPilots inp.pilot_rows with
  | .error e => (s, some e)
  | .ok pilots =>
    let s1 := setFile s "pilots.json" (writeDoc pilots)
    match convertDrones inp.drone_rows with
    | .error e => (s1, some e)
    | .ok drones =>
      let s2 := setFile s1 "drones.json" (writeDoc drones)
      match convertMissions inp.mission_rows with
      | .error e => (s2, some e)
      | .ok missions => (setFile s2 "missions.json" (writeDoc missions), none)

/-- Field lookup in a transformer result: `none` when the transformer
failed or the record has no such key. -/
def okLookup (x : Except PyError Record) (key : String) : Option Value :=
  match x with
  | .ok rec => rec.lookup key
  | .error _ => none

/-- The invariant the spec states for one normalized field value
(with the non-negativity requirement dropped; see the C2 theorems). -/
def ValueInv : Value → Prop
  | .vstr s => pyStrip s = s
  | .vlist l => ∀ x ∈ l, x ≠ "" ∧ pyStrip x = x
  | .vint _ => True

/-- The fixed key sequence of a pilot record (9 keys). -/
def pilotKeys : List String :=
  ["pilot_id", "name", "skills", "certifications", "location", "status",
   "current_assignment", "available_from", "daily_rate_inr"]

/-- The fixed key sequence of a drone record (8 keys). -/
def droneKeys : List String :=
  ["drone_id", "model", "capabilities", "status", "location",
   "current_assignment", "maintenance_due", "weather_resistance"]

/-- The fixed key sequence of a mission record (10 keys). -/
def missionKeys : List String :=
  ["project_id", "client", "location", "required_skills", "required_certs",
   "start_date", "end_date", "priority", "mission_budget_inr", "weather_forecast"]

/- Helper lemmas about the embedded Python string primitives. -/

lemma dropWhile_rdropWhile_dropWhile (l : List Char) :
    List.dropWhile pySpace (List.rdropWhile pySpace (List.dropWhile pySpace l)) =
      List.rdropWhile pySpace (List.dropWhile pySpace l) := by
  rw [List.dropWhile_eq_self_iff]
  intro hl
  have hpre : List.rdropWhile pySpace (List.dropWhile pySpace l) <+:
      List.dropWhile pySpace l := List.rdropWhile_prefix _ _
  have hl2 : 0 < (List.dropWhile pySpace l).length :=
    Nat.lt_of_lt_of_le hl hpre.length_le
  have hnot := List.dropWhile_get_zero_not pySpace l hl2
  have heq := hpre.getElem hl
  simp only [List.get_eq_getElem] at hnot ⊢
  rw [heq]
  exact hnot

lemma stripChars_idem (l : List Char) :
    stripChars (stripChars l) = stripChars l := by
  unfold stripChars
  rw [dropWhile_rdropWhile_dropWhile, List.rdropWhile_idempotent]

lemma pyStrip_idem (s : String) : pyStrip (pyStrip s) = pyStrip s := by
  show (⟨stripChars (stripChars s.data)⟩ : String) = ⟨stripChars s.data⟩
  exact congrArg String.mk (stripChars_idem s.data)

lemma cleanList_mem {s x : String} (hx : x ∈ cleanList s) :
    x ≠ "" ∧ pyStrip x = x ∧ ∃ piece ∈ pySplit s, x = pyStrip piece := by
  unfold cleanList at hx
  rcases List.mem_map.mp hx with ⟨piece, hpiece, rfl⟩
  rcases List.mem_filter.mp hpiece with ⟨hmem, hkeep⟩
  simp only [decide_eq_true_eq] at hkeep
  exact ⟨hkeep, pyStrip_idem piece, piece, hmem, rfl⟩

lemma cleanList_sublist (s : String) :
    List.Sublist (cleanList s) ((pySplit s).map pyStrip) :=
  (List.filter_sublist _).map pyStrip

/-- `transform_drone` never takes the error branch. -/
lemma transform_drone_never_fails (raw : Row) :
    ∃ rec, transform_drone raw = .ok rec :=
  ⟨_, rfl⟩

/-- Converting a drone row list never fails. -/
lemma mapExcept_drone_ok (rows : List Row) :
    ∃ recs, mapExcept transform_drone rows = .ok recs := by
  induction rows with
  | nil => exact ⟨[], rfl⟩
  | cons r rest ih =>
    rcases ih with ⟨recs, hrecs⟩
    rcases transform_drone_never_fails r with ⟨rec, hrec⟩
    exact ⟨rec :: recs, by simp [mapExcept, hrec, hrecs]⟩

lemma convertDrones_ok (rows : List Row) :
    ∃ recs, convertDrones rows = .ok recs :=
  mapExcept_drone_ok _

lemma length_filter_eq_iff {α : Type} {p : α → Bool} {l : List α} :
    (l.filter p).length = l.length ↔ ∀ a ∈ l, p a := by
  constructor
  · intro h
    exact List.filter_eq_self.mp ((List.filter_sublist l).eq_of_length h)
  · intro h
    rw [List.filter_eq_self.mpr h]

lemma strListOfJson_map_jstr (l : List String) :
    strListOfJson (l.map Json.jstr) = some l := by
  induction l with
  | nil => rfl
  | cons a t ih => simp [strListOfJson, ih]

lemma valueOfJson_valueToJson (v : Value) : valueOfJson (valueToJson v) = some v := by
  cases v with
  | vstr s => rfl
  | vint n => rfl
  | vlist l => simp [valueToJson, valueOfJson, strListOfJson_map_jstr]

lemma fieldsOfJson_recordToJson (rec : Record) :
    fieldsOfJson (rec.map (fun kv => (kv.1, valueToJson kv.2))) = some rec := by
  induction rec with
  | nil => rfl
  | cons kv rest ih =>
    obtain ⟨k, v⟩ := kv
    simp [fieldsOfJson, valueOfJson_valueToJson, ih]

lemma recordsOfJson_map_recordToJson (recs : List Record) :
    recordsOfJson (recs.map recordToJson) = some recs := by
  induction recs with
  | nil => rfl
  | cons rec rest ih =>
    simp [recordsOfJson, recordOfJson, recordToJson, fieldsOfJson_recordToJson, ih]

lemma rget_of_lookup_none {row : Row} {key : String} (dflt : String)
    (h : row.lookup key = none) : rget row key dflt = dflt := by
  simp [rget, h]

lemma rget_of_lookup_some {row : Row} {key v : String} (dflt : String)
    (h : row.lookup key = some v) : rget row key dflt = v := by
  simp [rget, h]

lemma transform_pilot_of_int_none {raw : Row}
    (h : pyInt (pyStrip (rget raw "daily_rate_inr" "0")) = none) :
    transform_pilot raw =
      .error (.valueConversionError (pyStrip (rget raw "daily_rate_inr" "0"))) := by
  unfold transform_pilot
  rw [h]

lemma okLookup_pilot_rate {raw : Row} {n : Int}
    (h : pyInt (pyStrip (rget raw "daily_rate_inr" "0")) = some n) :
    okLookup (transform_pilot raw) "daily_rate_inr" = some (Value.vint n) := by
  unfold transform_pilot
  rw [h]
  simp [okLookup, List.lookup]

lemma transform_mission_of_int_none {raw : Row}
    (h : pyInt (pyStrip (rget raw "mission_budget_inr" "0")) = none) :
    transform_mission raw =
      .error (.valueConversionError (pyStrip (rget raw "mission_budget_inr" "0"))) := by
  unfold transform_mission
  rw [h]

lemma okLookup_mission_budget {raw : Row} {n : Int}
    (h : pyInt (pyStrip (rget raw "mission_budget_inr" "0")) = some n) :
    okLookup (transform_mission raw) "mission_budget_inr" = some (Value.vint n) := by
  unfold transform_mission
  rw [h]
  simp [okLookup, List.lookup]

lemma okLookup_pilot_rate_absent {raw : Row}
    (h : raw.lookup "daily_rate_inr" = none) :
    okLookup (transform_pilot raw) "daily_rate_inr" = some (Value.vint 0) := by
  apply okLookup_pilot_rate
  rw [rget_of_lookup_none "0" h]
  rfl

lemma okLookup_mission_budget_absent {raw : Row}
    (h : raw.lookup "mission_budget_inr" = none) :
    okLookup (transform_mission raw) "mission_budget_inr" = some (Value.vint 0) := by
  apply okLookup_mission_budget
  rw [rget_of_lookup_none "0" h]
  rfl

lemma pilot_ok_inv {raw : Row} {rec : Record} (h : transform_pilot raw = .ok rec) :
    ∀ k v, (k, v) ∈ rec → ValueInv v := by
  intro k v hkv
  rcases hI : pyInt (pyStrip (rget raw "daily_rate_inr" "0")) with _ | n
  · rw [transform_pilot_of_int_none hI] at h
    cases h
  · simp only [transform_pilot, hI, Except.ok.injEq] at h
    subst h
    simp only [List.mem_cons, List.not_mem_nil, or_false, Prod.mk.injEq] at hkv
    rcases hkv with h | h | h | h | h | h | h | h | h <;> obtain ⟨rfl, rfl⟩ := h <;>
      first
        | exact pyStrip_idem _
        | exact fun x hx => ⟨(cleanList_mem hx).1, (cleanList_mem hx).2.1⟩
        | trivial

lemma drone_ok_inv {raw : Row} {rec : Record} (h : transform_drone raw = .ok rec) :
    ∀ k v, (k, v) ∈ rec → ValueInv v := by
  intro k v hkv
  simp only [transform_drone, Except.ok.injEq] at h
  subst h
  simp only [List.mem_cons, List.not_mem_nil, or_false, Prod.mk.injEq] at hkv
  rcases hkv with h | h | h | h | h | h | h | h <;> obtain ⟨rfl, rfl⟩ := h <;>
    first
      | exact pyStrip_idem _
      | exact fun x hx => ⟨(cleanList_mem hx).1, (cleanList_mem hx).2.1⟩

lemma mission_ok_inv {raw : Row} {rec : Record} (h : transform_mission raw = .ok rec) :
    ∀ k v, (k, v) ∈ rec → ValueInv v := by
  intro k v hkv
  rcases hI : pyInt (pyStrip (rget raw "mission_budget_inr" "0")) with _ | n
  · rw [transform_mission_of_int_none hI] at h
    cases h
  · simp only [transform_mission, hI, Except.ok.injEq] at h
    subst h
    simp only [List.mem_cons, List.not_mem_nil, or_false, Prod.mk.injEq] at hkv
    rcases hkv with h | h | h | h | h | h | h | h | h | h <;> obtain ⟨rfl, rfl⟩ := h <;>
      first
        | exact pyStrip_idem _
        | exact fun x hx => ⟨(cleanList_mem hx).1, (cleanList_mem hx).2.1⟩
        | trivial

lemma pilot_keys_of_ok {raw : Row} {rec : Record} (h : transform_pilot raw = .ok rec) :
    rec.map Prod.fst = pilotKeys := by
  rcases hI : pyInt (pyStrip (rget raw "daily_rate_inr" "0")) with _ | n
  · rw [transform_pilot_of_int_none hI] at h
    cases h
  · simp only [transform_pilot, hI, Except.ok.injEq] at h
    subst h
    rfl

lemma drone_keys_of_ok {raw : Row} {rec : Record} (h : transform_drone raw = .ok rec) :
    rec.map Prod.fst = droneKeys := by
  simp only [transform_drone, Except.ok.injEq] at h
  subst h
  rfl

lemma mission_keys_of_ok {raw : Row} {rec : Record} (h : transform_mission raw = .ok rec) :
    rec.map Prod.fst = missionKeys := by
  rcases hI : pyInt (pyStrip (rget raw "mission_budget_inr" "0")) with _ | n
  · rw [transform_mission_of_int_none hI] at h
    cases h
  · simp only [transform_mission, hI, Except.ok.injEq] at h
    subst h
    rfl

lemma transform_pilot_congr {raw raw' : Row}
    (h : ∀ k ∈ pilotKeys, raw.lookup k = raw'.lookup k) :
    transform_pilot raw = transform_pilot raw' := by
  unfold transform_pilot rget
  rw [h "pilot_id" (by decide), h "name" (by decide), h "skills" (by decide),
    h "certifications" (by decide), h "location" (by decide), h "status" (by decide),
    h "current_assignment" (by decide), h "available_from" (by decide),
    h "daily_rate_inr" (by decide)]

lemma transform_drone_congr {raw raw' : Row}
    (h : ∀ k ∈ droneKeys, raw.lookup k = raw'.lookup k) :
    transform_drone raw = transform_drone raw' := by
  unfold transform_drone rget
  rw [h "drone_id" (by decide), h "model" (by decide), h "capabilities" (by decide),
    h "status" (by decide), h "location" (by decide),
    h "current_assignment" (by decide), h "maintenance_due" (by decide),
    h "weather_resistance" (by decide)]

lemma transform_mission_congr {raw raw' : Row}
    (h : ∀ k ∈ missionKeys, raw.lookup k = raw'.lookup k) :
    transform_mission raw = transform_mission raw' := by
  unfold transform_mission rget
  rw [h "project_id" (by decide), h "client" (by decide), h "location" (by decide),
    h "required_skills" (by decide), h "required_certs" (by decide),
    h "start_date" (by decide), h "end_date" (by decide), h "priority" (by decide),
    h "mission_budget_inr" (by decide), h "weather_forecast" (by decide)]

end ParseCsv

namespace ParseCsv

/-- C1 (corrected): for each integer field (pilot `daily_rate_inr`, mission
`mission_budget_inr`) the transformer looks the field up with default
`"0"`, trims it and parses it as a base-10 integer; an absent key therefore
converts to `0`, and a present value whose trimmed text does not parse —
including the empty string, which is NOT treated as zero — fails with a
ValueConversionError carrying the trimmed text. -/
theorem integer_field_parsing (raw : Row) :
    (raw.lookup "daily_rate_inr" = none →
      okLookup (transform_pilot raw) "daily_rate_inr" = some (Value.vint 0)) ∧
    (∀ v, raw.lookup "daily_rate_inr" = some v → pyInt (pyStrip v) = none →
      transform_pilot raw = .error (.valueConversionError (pyStrip v))) ∧
    (∀ v n, raw.lookup "daily_rate_inr" = some v → pyInt (pyStrip v) = some n →
      okLookup (transform_pilot raw) "daily_rate_inr" = some (Value.vint n)) ∧
    (raw.lookup "mission_budget_inr" = none →
      okLookup (transform_mission raw) "mission_budget_inr" = some (Value.vint 0)) ∧
    (∀ v, raw.lookup "mission_budget_inr" = some v → pyInt (pyStrip v) = none →
      transform_mission raw = .error (.valueConversionError (pyStrip v))) ∧
    (∀ v n, raw.lookup "mission_budget_inr" = some v → pyInt (pyStrip v) = some n →
      okLookup (transform_mission raw) "mission_budget_inr" = some (Value.vint n)) ∧
    pyInt "" = none := by
  refine ⟨okLookup_pilot_rate_absent, ?_, ?_, okLookup_mission_budget_absent, ?_, ?_, rfl⟩
  · intro v hv hnone
    have hr := rget_of_lookup_some "0" hv
    rw [← hr] at hnone ⊢
    exact transform_pilot_of_int_none hnone
  · intro v n hv hsome
    have hr := rget_of_lookup_some "0" hv
    rw [← hr] at hsome
    exact okLookup_pilot_rate hsome
  · intro v hv hnone
    have hr := rget_of_lookup_some "0" hv
    rw [← hr] at hnone ⊢
    exact transform_mission_of_int_none hnone
  · intro v n hv hsome
    have hr := rget_of_lookup_some "0" hv
    rw [← hr] at hsome
    exact okLookup_mission_budget hsome

/-- C1 witness: concrete instances of each hypothesis of
`integer_field_parsing`. -/
theorem integer_field_parsing_witness :
    okLookup (transform_pilot []) "daily_rate_inr" = some (Value.vint 0) ∧
    transform_pilot [("daily_rate_inr", "abc")] =
      .error (.valueConversionError "abc") ∧
    okLookup (transform_pilot [("daily_rate_inr", " 1500 ")]) "daily_rate_inr" =
      some (Value.vint 1500) ∧
    okLookup (transform_mission []) "mission_budget_inr" = some (Value.vint 0) := by
  refine ⟨(integer_field_parsing []).1 rfl, ?_, ?_, (integer_field_parsing []).2.2.2.1 rfl⟩
  · exact (integer_field_parsing _).2.1 "abc" rfl rfl
  · exact (integer_field_parsing _).2.2.1 " 1500 " 1500 rfl rfl

/-- C1 counterexample: a present `daily_rate_inr` value whose trimmed text
is empty does not convert to 0 — the transformer fails, because the
default `"0"` applies only to an absent key, and `int("")` raises. -/
theorem integer_field_empty_fails :
    pyStrip " " = "" ∧
    transform_pilot [("daily_rate_inr", " ")] =
      .error (.valueConversionError "") := by
  exact ⟨rfl, rfl⟩

/-- C5: the end-to-end pilot row of the spec's scenario produces exactly
the normalized record the spec displays. -/
theorem pilot_scenario :
    transform_pilot
      [("pilot_id", "P001"), ("name", " Jane Doe "), ("skills", "Thermal, LiDAR"),
       ("certifications", ""), ("location", "Pune"), ("status", "available"),
       ("current_assignment", ""), ("available_from", "2024-01-01"),
       ("daily_rate_inr", "5000")] =
    .ok [("pilot_id", Value.vstr "P001"), ("name", Value.vstr "Jane Doe"),
         ("skills", Value.vlist ["Thermal", "LiDAR"]),
         ("certifications", Value.vlist []), ("location", Value.vstr "Pune"),
         ("status", Value.vstr "available"), ("current_assignment", Value.vstr ""),
         ("available_from", Value.vstr "2024-01-01"),
         ("daily_rate_inr", Value.vint 5000)] := by
  rfl

/-- C3: the row reader keeps exactly the rows with some non-empty value,
preserving their order; hence its output length is at most the input
length, with equality iff no all-empty row exists. -/
theorem row_filtering (rows : List Row) :
    List.Sublist (parse_csv_to_records rows) rows ∧
    (∀ r, r ∈ parse_csv_to_records rows ↔ r ∈ rows ∧ ∃ kv ∈ r, kv.2 ≠ "") ∧
    (parse_csv_to_records rows).length ≤ rows.length ∧
    ((parse_csv_to_records rows).length = rows.length ↔
      ∀ r ∈ rows, ∃ kv ∈ r, kv.2 ≠ "") := by
  refine ⟨List.filter_sublist _, ?_, List.length_filter_le _ _, ?_⟩
  · intro r
    rw [parse_csv_to_records, List.mem_filter]
    simp [List.any_eq_true]
  · rw [parse_csv_to_records, length_filter_eq_iff]
    simp [List.any_eq_true]

/-- C4: a list field splits its raw value on commas, trims each piece,
drops empty pieces and preserves the order of the rest; `"a, b ,,c"`
yields `["a", "b", "c"]`; `transform_drone` stores exactly this list. -/
theorem list_field_splitting (s : String) (raw : Row) :
    (∀ x ∈ cleanList s, x ≠ "" ∧ ∃ piece ∈ pySplit s, x = pyStrip piece) ∧
    List.Sublist (cleanList s) ((pySplit s).map pyStrip) ∧
    cleanList "a, b ,,c" = ["a", "b", "c"] ∧
    okLookup (transform_drone raw) "capabilities" =
      some (Value.vlist (cleanList (rget raw "capabilities" ""))) := by
  refine ⟨?_, cleanList_sublist s, rfl, ?_⟩
  · intro x hx
    rcases cleanList_mem hx with ⟨h1, _, h3⟩
    exact ⟨h1, h3⟩
  · simp [transform_drone, okLookup, List.lookup]

/-- C7: writing a sequence of normalized records to an output document and
reading the document back yields the same records in the same order. -/
theorem write_read_roundtrip (recs : List Record) :
    readDoc (writeDoc recs) = some recs := by
  simp [writeDoc, readDoc, recordsOfJson_map_recordToJson]

/-- C9: the drone transformer is total — it succeeds on every raw row —
while the pilot and mission transformers can fail on their integer
field. -/
theorem drone_transformer_total :
    (∀ raw : Row, ∃ rec, transform_drone raw = .ok rec) ∧
    (∃ (raw : Row) (e : PyError), transform_pilot raw = .error e) ∧
    (∃ (raw : Row) (e : PyError), transform_mission raw = .error e) := by
  refine ⟨transform_drone_never_fails, ?_, ?_⟩
  · exact ⟨[("daily_rate_inr", "x")], .valueConversionError "x", rfl⟩
  · exact ⟨[("mission_budget_inr", "x")], .valueConversionError "x", rfl⟩

/-- C2 (corrected): every normalized entity has whitespace-trimmed string
fields, list fields without empty-string elements, and integer numeric
fields that are zero when the raw value is absent — but the numeric fields
are NOT guaranteed non-negative (see `normalized_negative_rate`). -/
theorem normalized_invariants (raw : Row) (rec : Record) :
    (transform_pilot raw = .ok rec → ∀ k v, (k, v) ∈ rec → ValueInv v) ∧
    (transform_drone raw = .ok rec → ∀ k v, (k, v) ∈ rec → ValueInv v) ∧
    (transform_mission raw = .ok rec → ∀ k v, (k, v) ∈ rec → ValueInv v) ∧
    (raw.lookup "daily_rate_inr" = none →
      okLookup (transform_pilot raw) "daily_rate_inr" = some (Value.vint 0)) ∧
    (raw.lookup "mission_budget_inr" = none →
      okLookup (transform_mission raw) "mission_budget_inr" = some (Value.vint 0)) := by
  exact ⟨pilot_ok_inv, drone_ok_inv, mission_ok_inv,
    okLookup_pilot_rate_absent, okLookup_mission_budget_absent⟩

/-- C2 witness: concrete instances of the invariant hypotheses. -/
theorem normalized_invariants_witness :
    ValueInv (Value.vstr "Pune") ∧
    ValueInv (Value.vlist ["Thermal", "LiDAR"]) ∧
    okLookup (transform_mission []) "mission_budget_inr" = some (Value.vint 0) := by
  have h := normalized_invariants [("location", " Pune "), ("skills", "Thermal, LiDAR")]
    [("pilot_id", Value.vstr ""), ("name", Value.vstr ""),
     ("skills", Value.vlist ["Thermal", "LiDAR"]), ("certifications", Value.vlist []),
     ("location", Value.vstr "Pune"), ("status", Value.vstr ""),
     ("current_assignment", Value.vstr ""), ("available_from", Value.vstr ""),
     ("daily_rate_inr", Value.vint 0)]
  exact ⟨h.1 rfl "location" (Value.vstr "Pune") (by decide),
    h.1 rfl "skills" (Value.vlist ["Thermal", "LiDAR"]) (by decide),
    (normalized_invariants [] []).2.2.2.2 rfl⟩

/-- C2 counterexample: a negative raw value parses successfully, so a
numeric field of a normalized entity can be negative — the claimed
non-negativity invariant does not hold. -/
theorem normalized_negative_rate :
    transform_pilot [("daily_rate_inr", "-5")] =
      .ok [("pilot_id", Value.vstr ""), ("name", Value.vstr ""),
           ("skills", Value.vlist []), ("certifications", Value.vlist []),
           ("location", Value.vstr ""), ("status", Value.vstr ""),
           ("current_assignment", Value.vstr ""), ("available_from", Value.vstr ""),
           ("daily_rate_inr", Value.vint (-5))] ∧
    (-5 : Int) < 0 := by
  exact ⟨rfl, by decide⟩

/-- C6: the orchestrator runs the three conversions in the fixed order
pilots, drones, missions; a failure makes it halt at once — on a pilot
failure nothing is written and the result does not even depend on the
drone or mission inputs; on a mission failure the pilot and drone files
have been written and the missions file is untouched. -/
theorem halt_on_first_failure (inp : Inputs) (s : Store) :
    (∀ e, convertPilots inp.pilot_rows = .error e →
      ∀ d' m', main ⟨inp.pilot_rows, d', m'⟩ s = (s, some e)) ∧
    (∀ p d e, convertPilots inp.pilot_rows = .ok p →
      convertDrones inp.drone_rows = .ok d →
      convertMissions inp.mission_rows = .error e →
      main inp s = (setFile (setFile s "pilots.json" (writeDoc p)) "drones.json"
        (writeDoc d), some e)) ∧
    (∀ p d m, convertPilots inp.pilot_rows = .ok p →
      convertDrones inp.drone_rows = .ok d →
      convertMissions inp.mission_rows = .ok m →
      main inp s = (setFile (setFile (setFile s "pilots.json" (writeDoc p))
        "drones.json" (writeDoc d)) "missions.json" (writeDoc m), none)) := by
  refine ⟨?_, ?_, ?_⟩
  · intro e he d' m'
    simp [main, he]
  · intro p d e hp hd he
    simp [main, hp, hd, he]
  · intro p d m hp hd hm
    simp [main, hp, hd, hm]

/-- C6 witness: a failing pilot file halts the run before anything is
written; a failing mission file leaves the first two files written; an
all-clean run writes all three files in order. -/
theorem halt_on_first_failure_witness :
    main ⟨[[("daily_rate_inr", "abc")]], [], []⟩ (fun _ => none) =
      ((fun _ => none), some (.valueConversionError "abc")) ∧
    main ⟨[], [], [[("mission_budget_inr", "x")]]⟩ (fun _ => none) =
      (setFile (setFile (fun _ => none) "pilots.json" (writeDoc []))
        "drones.json" (writeDoc []), some (.valueConversionError "x")) ∧
    main ⟨[], [], []⟩ (fun _ => none) =
      (setFile (setFile (setFile (fun _ => none) "pilots.json" (writeDoc []))
        "drones.json" (writeDoc [])) "missions.json" (writeDoc []), none) := by
  refine ⟨?_, ?_, ?_⟩
  · exact (halt_on_first_failure ⟨[[("daily_rate_inr", "abc")]], [], []⟩
      (fun _ => none)).1 (.valueConversionError "abc") rfl [] []
  · exact (halt_on_first_failure ⟨[], [], [[("mission_budget_inr", "x")]]⟩
      (fun _ => none)).2.1 [] [] (.valueConversionError "x") rfl rfl rfl
  · exact (halt_on_first_failure ⟨[], [], []⟩ (fun _ => none)).2.2 [] [] [] rfl rfl rfl

/-- C8: running the orchestrator a second time on the same inputs, starting
from the output state of the first run, reproduces that state exactly:
outputs are overwritten deterministically, never appended. -/
theorem rerun_idempotent (inp : Inputs) (s : Store) :
    main inp (main inp s).1 = main inp s := by
  rcases hp : convertPilots inp.pilot_rows with e | p
  · simp [main, hp]
  · rcases convertDrones_ok inp.drone_rows with ⟨d, hd⟩
    rcases hm : convertMissions inp.mission_rows with e | m
    · simp only [main, hp, hd, hm]
      refine Prod.ext ?_ rfl
      funext k
      by_cases h1 : k = "drones.json" <;> by_cases h2 : k = "pilots.json" <;>
        simp [setFile, h1, h2]
    · simp only [main, hp, hd, hm]
      refine Prod.ext ?_ rfl
      funext k
      by_cases h1 : k = "missions.json" <;> by_cases h2 : k = "drones.json" <;>
        by_cases h3 : k = "pilots.json" <;> simp [setFile, h1, h2, h3]

/-- C10 (corrected): each transformer emits exactly its fixed key sequence
(9 pilot keys, 8 drone keys, 10 mission keys) whenever it succeeds, and its
result depends only on the columns in that key set, so extra input columns
are ignored; absent string and list columns behave as empty strings, but an
absent integer column behaves as `"0"`, not as an empty string (see
`absent_vs_empty_column`). -/
theorem fixed_key_sets (raw raw' : Row) :
    (∀ rec, transform_pilot raw = .ok rec → rec.map Prod.fst = pilotKeys) ∧
    (∀ rec, transform_drone raw = .ok rec → rec.map Prod.fst = droneKeys) ∧
    (∀ rec, transform_mission raw = .ok rec → rec.map Prod.fst = missionKeys) ∧
    ((∀ k ∈ pilotKeys, raw.lookup k = raw'.lookup k) →
      transform_pilot raw = transform_pilot raw') ∧
    ((∀ k ∈ droneKeys, raw.lookup k = raw'.lookup k) →
      transform_drone raw = transform_drone raw') ∧
    ((∀ k ∈ missionKeys, raw.lookup k = raw'.lookup k) →
      transform_mission raw = transform_mission raw') := by
  exact ⟨fun _ => pilot_keys_of_ok, fun _ => drone_keys_of_ok,
    fun _ => mission_keys_of_ok, transform_pilot_congr, transform_drone_congr,
    transform_mission_congr⟩

/-- C10 witness: the key sequence of a concrete pilot record, and a row
with only an extra unknown column transforming like the empty row. -/
theorem fixed_key_sets_witness :
    ([("pilot_id", Value.vstr ""), ("name", Value.vstr ""),
      ("skills", Value.vlist []), ("certifications", Value.vlist []),
      ("location", Value.vstr ""), ("status", Value.vstr ""),
      ("current_assignment", Value.vstr ""), ("available_from", Value.vstr ""),
      ("daily_rate_inr", Value.vint 0)] : Record).map Prod.fst = pilotKeys ∧
    transform_pilot [("extra_column", "x")] = transform_pilot [] := by
  refine ⟨?_, ?_⟩
  · exact (fixed_key_sets [] []).1 _ rfl
  · exact (fixed_key_sets [("extra_column", "x")] []).2.2.2.1 (by decide)

/-- C10 counterexample: an absent `daily_rate_inr` column does not behave
like a present empty-string one — absent converts to 0, while a present
`""` makes the transformer fail. -/
theorem absent_vs_empty_column :
    okLookup (transform_pilot []) "daily_rate_inr" = some (Value.vint 0) ∧
    transform_pilot [("daily_rate_inr", "")] =
      .error (.valueConversionError "") ∧
    okLookup (transform_pilot []) "daily_rate_inr" ≠
      okLookup (transform_pilot [("daily_rate_inr", "")]) "daily_rate_inr" := by
  exact ⟨rfl, rfl, by decide⟩

/-- C3 witness: the reader on a concrete three-row input keeps exactly the
one row with a non-empty value. -/
theorem row_filtering_witness :
    parse_csv_to_records [[("a", "1")], [("a", "")], []] = [[("a", "1")]] ∧
    (parse_csv_to_records [[("a", "1")], [("a", "")], []]).length ≤ 3 := by
  exact ⟨rfl, (row_filtering [[("a", "1")], [("a", "")], []]).2.2.1⟩

/-- C4 witness: the spec's splitting example, and the capabilities field of
a drone transformed from an empty row. -/
theorem list_field_splitting_witness :
    cleanList "a, b ,,c" = ["a", "b", "c"] ∧
    okLookup (transform_drone []) "capabilities" = some (Value.vlist []) := by
  refine ⟨(list_field_splitting "a, b ,,c" []).2.2.1, ?_⟩
  exact (list_field_splitting "" []).2.2.2

end ParseCsv
